import Mathlib

/-
Verification development for the luzern-velox-bot repository.

The repository has two variants of the same pipeline:
  velox.py           (the main variant, dict snapshots with coordinates)
  velox-bot-async.py (the older async variant, plain name lists)
Both are embedded below.  Persisted JSON files are modelled by the
FileState type; the Python dict values loaded from them are modelled by
insertion-ordered association lists, and values that Python signals by
None are modelled by Option.  Functions that can raise an uncaught
Python exception return Except, with the exception class name as the
error value.
-/

namespace Velox

/-- Coordinates as stored by velox.py: a pair of optional strings
(lat, long); a missing component models the Python value None. -/
abbrev Coord := Option String × Option String

/-- A snapshot is the current_dict of velox.py: an insertion-ordered
mapping from location name to coordinate pair (a Python dict, so keys
are unique by construction). -/
abbrev Snapshot := List (String × Coord)

/-- One record of chat_ids.json: the object stored per chat id.  The
field notify_for_no_updates may be absent in a malformed record. -/
structure ChatRecord where
  notify_for_no_updates : Option Bool
deriving DecidableEq, Repr

/-- The chat_ids.json mapping: chat id to record, insertion ordered. -/
abbrev Registry := List (String × ChatRecord)

/-- State of a persisted JSON file: absent, unreadable by json.load,
or readable with the given parsed value. -/
inductive FileState (α : Type) where
  | missing
  | corrupt
  | present (value : α)
deriving DecidableEq, Repr

/-- Python str of an optional string: None prints as the text None. -/
def pyStr : Option String → String
  | none => "None"
  | some s => s

/-- generate_maps_base_url from velox.py: interpolates the two
coordinate slots of the tuple into a fixed Google Maps search URL. -/
def generate_maps_base_url (lat_long_t : Coord) : String :=
  "https://www.google.com/maps/search/?api=1&query=" ++ pyStr lat_long_t.1
    ++ "%2C" ++ pyStr lat_long_t.2

/-- The fixed source page URL that fetch_current_dict scrapes. -/
def sourceUrl : String :=
  "https://polizei.lu.ch/organisation/sicherheit_verkehrspolizei/verkehrspolizei/spezialversorgung/verkehrssicherheit/Aktuelle_Tempomessungen"

/-- An anchor tag inside a list item: its text content and the result
of the regex search over its onclick attribute (the two captured
groups when the map flyTo pattern matches, none otherwise). -/
structure ATag where
  text : String
  coordsMatch : Option (String × String)
deriving DecidableEq, Repr

/-- A list item of the radarList container, possibly without an
anchor tag. -/
structure LiItem where
  a_tag : Option ATag
deriving DecidableEq, Repr

/-- Parsed input to fetch_current_dict: a non-200 HTTP status, a page
without the radarList container, or the list of li tags found in it. -/
inductive FetchInput where
  | badStatus (code : Nat)
  | noRadarDiv
  | page (li_tags : List LiItem)
deriving DecidableEq, Repr

/-- The entry velox.py stores for one anchor: the anchor text keyed to
the stripped captured coordinates, or to (None, None) when the regex
found no match. -/
def fetchEntry (t : ATag) : String × Coord :=
  match t.coordsMatch with
  | some (la, lo) => (t.text, (some la.trim, some lo.trim))
  | none => (t.text, (none, none))

/-- fetch_current_dict from velox.py: returns none on a non-200 status
or a missing radarList div; otherwise drops the trailing li tag (the
link to the map itself), keeps the li tags that contain an anchor and
records one entry per anchor. -/
def fetch_current_dict : FetchInput → Option Snapshot
  | .badStatus _ => none
  | .noRadarDiv => none
  | .page li_tags => some ((li_tags.dropLast.filterMap LiItem.a_tag).map fetchEntry)

/-- get_chats from velox.py: reads chat_ids.json catching only
FileNotFoundError.  A missing file yields none (no previous users); a
file whose contents json.load cannot parse raises ValueError, which is
not caught. -/
def get_chats : FileState Registry → Except String (Option Registry)
  | .missing => .ok none
  | .corrupt => .error "ValueError"
  | .present r => .ok (some r)

/-- Loading of previous_dict.json inside check_for_updates of
velox.py: both FileNotFoundError and ValueError are caught and yield
the empty previous set. -/
def loadPrevious : FileState Snapshot → Snapshot
  | .missing => []
  | .corrupt => []
  | .present s => s

/-- save_chat_id from velox.py, applied to the loaded registry (a
missing file loads as the empty dict): an existing id returns False
and leaves the registry untouched; a new id is appended with the
notify_for_no_updates field set to False, the registry is saved, and
True is returned. -/
def save_chat_id (cs : Registry) (chat_id : String) : Bool × Registry :=
  if (cs.map Prod.fst).contains chat_id then (false, cs)
  else (true, cs ++ [(chat_id, ⟨some false⟩)])

/-- Iterated subscription of the same chat id. -/
def subscribeN : Nat → Registry → String → Registry
  | 0, cs, _ => cs
  | n + 1, cs, chat_id => (save_chat_id (subscribeN n cs chat_id) chat_id).snd

/-- The value of the Python expression chat.get with key
notify_for_no_updates and default False, on one record. -/
def recordPref (r : ChatRecord) : Bool := r.notify_for_no_updates.getD false

/-- should_notify_no_updates from velox.py, applied to the loaded
chat_ids value: a falsy value (None or the empty dict) yields False;
otherwise the record of the chat id is indexed directly, which raises
KeyError when the id is absent, and its notify_for_no_updates field is
read with default False. -/
def should_notify_no_updates (chats : Option Registry) (chat_id : String) :
    Except String Bool :=
  match chats with
  | none => .ok false
  | some cs =>
    if cs.isEmpty then .ok false
    else
      match cs.lookup chat_id with
      | some r => .ok (recordPref r)
      | none => .error "KeyError"

/-- broadcast from velox.py, applied to the loaded chat_ids value:
returns the list of (chat id, message) deliveries in registry order.
A falsy registry sends nothing; otherwise every chat id is visited
and, when no_updates holds and the preference stored in its record is
False, the id is skipped (continue); else the message is sent. -/
def broadcast (chats : Option Registry) (msg : String) (no_updates : Bool) :
    List (String × String) :=
  match chats with
  | none => []
  | some cs =>
    if cs.isEmpty then []
    else (cs.filter (fun p => !(no_updates && !(recordPref p.snd)))).map
      (fun p => (p.fst, msg))

/-- broadcast from velox-bot-async.py: same shape as the velox.py one,
except that the body of the preference test is a pass statement, so
the test has no effect and the message is sent to every chat id. -/
def broadcastAsync (chats : Option Registry) (msg : String)
    (no_updates : Bool) : List (String × String) :=
  match chats with
  | none => []
  | some cs =>
    if cs.isEmpty then []
    else cs.map (fun p => (p.fst, msg))

/-- Keys of a snapshot (set_current and set_previous in the code). -/
def keysOf (s : Snapshot) : List String := s.map Prod.fst

/-- The added set of check_for_updates: set_current minus
set_previous, as name comparison. -/
def diffAdded (previous current : Snapshot) : List String :=
  (keysOf current).filter (fun k => !((keysOf previous).contains k))

/-- The removed set of check_for_updates: set_previous minus
set_current, as name comparison. -/
def diffRemoved (previous current : Snapshot) : List String :=
  (keysOf previous).filter (fun k => !((keysOf current).contains k))

/-- The message broadcast when fetch_current_dict returns None. -/
def failMsg : String := "Failed to fetch updates."

/-- One bulleted entry with its map link: the format string shared
verbatim by check_for_updates and cmd_current_list in velox.py. -/
def formatEntry (name : String) (c : Coord) : String :=
  "- <a href=\x27" ++ generate_maps_base_url c ++ "\x27>" ++ name ++ "</a>\n"

/-- The update message of check_for_updates in velox.py: a header,
then an Added section and a Removed section when the respective sets
are nonempty (coordinates looked up in the current, respectively
previous, snapshot), and the no-changes line when both are empty. -/
def mkMsg (previous current : Snapshot) : String :=
  let added := diffAdded previous current
  let removed := diffRemoved previous current
  "Checking for updates\n\n"
    ++ (if added.isEmpty then "" else
          "Added:\n" ++ String.join (added.map
            (fun el => formatEntry el ((current.lookup el).getD (none, none)))))
    ++ (if removed.isEmpty then "" else
          "Removed:\n" ++ String.join (removed.map
            (fun el => formatEntry el ((previous.lookup el).getD (none, none)))))
    ++ (if added.isEmpty && removed.isEmpty then "No changes detected." else "")

/-- Result of one run of check_for_updates: the deliveries made and
the state of previous_dict.json afterwards. -/
structure RunResult where
  deliveries : List (String × String)
  prevFile : FileState Snapshot
deriving DecidableEq, Repr

/-- check_for_updates from velox.py.  hasApp tells whether an app was
passed (the CLI passes none, the bot passes the application); fetched
is the result of fetch_current_dict; prevFile and chats are the
persisted states read during the run.  On fetch failure the fail
message is broadcast with no_updates False and the function returns
before touching previous_dict.json.  Otherwise the diff message is
broadcast with no_updates set exactly when nothing changed and the run
is not forced, and the fetched snapshot is saved unless no_updates
holds or save_list is off. -/
def check_for_updates (hasApp save_list forced_update : Bool)
    (fetched : Option Snapshot) (prevFile : FileState Snapshot)
    (chats : Option Registry) : RunResult :=
  match fetched with
  | none => ⟨if hasApp then broadcast chats failMsg false else [], prevFile⟩
  | some current =>
    let previous := loadPrevious prevFile
    let no_updates := (diffAdded previous current).isEmpty
        && (diffRemoved previous current).isEmpty && !forced_update
    ⟨if hasApp then broadcast chats (mkMsg previous current) no_updates else [],
     if !no_updates && save_list then .present current else prevFile⟩

/-- Result of one run of the async check_for_updates. -/
structure AsyncRunResult where
  deliveries : List (String × String)
  prevFile : FileState (List String)
deriving DecidableEq, Repr

/-- The update message of the async check_for_updates (plain names,
no links). -/
def asyncMsg (added removed : List String) : String :=
  "Checking for updates:\n"
    ++ (if added.isEmpty then "" else
          "Added:\n- " ++ String.intercalate "\n- " added ++ "\n")
    ++ (if removed.isEmpty then "" else
          "Removed:\n- " ++ String.intercalate "\n- " removed ++ "\n")
    ++ (if added.isEmpty && removed.isEmpty then "No changes detected." else "")

/-- check_for_updates from velox-bot-async.py: on fetch failure the
fail message is broadcast and the function returns before saving; the
load of previous_list.txt catches only FileNotFoundError, so a corrupt
file raises ValueError; on success the message is broadcast through
the async broadcast and the fetched list is always saved, whether or
not anything changed. -/
def checkForUpdatesAsync (fetched : Option (List String))
    (prevFile : FileState (List String)) (chats : Option Registry) :
    Except String AsyncRunResult :=
  match fetched with
  | none => .ok ⟨broadcastAsync chats failMsg false, prevFile⟩
  | some current =>
    match prevFile with
    | .corrupt => .error "ValueError"
    | pf =>
      let previous := match pf with
        | .present l => l
        | _ => []
      let added := current.filter (fun k => !(previous.contains k))
      let removed := previous.filter (fun k => !(current.contains k))
      let no_updates := added.isEmpty && removed.isEmpty
      .ok ⟨broadcastAsync chats (asyncMsg added removed) no_updates, .present current⟩

/-- Outcome of a command handler: an uncaught exception, or a reply
sent back to the requesting chat. -/
inductive CmdReply where
  | crash (exc : String)
  | reply (text : String)
deriving DecidableEq, Repr

/-- cmd_current_list from velox.py: it iterates the items of the
fetch_current_dict result directly, so a failed fetch (None) raises
AttributeError; on success it replies with the header followed by one
formatted entry per location. -/
def cmd_current_list (fetched : Option Snapshot) : CmdReply :=
  match fetched with
  | none => .crash "AttributeError"
  | some d =>
    .reply ("Current List\n\n"
      ++ String.join (d.map (fun p => formatEntry p.fst p.snd)))

/-- Outcome of cmd_set_notify_no_updates: a silent early return (falsy
registry: no reply, no save), an uncaught KeyError, or success with
the new value, the saved registry and the reply text. -/
inductive ToggleResult where
  | silent
  | keyError
  | ok (new_val : Bool) (saved : Registry) (reply : String)
deriving DecidableEq, Repr

/-- cmd_set_notify_no_updates from velox.py, applied to the loaded
chat_ids value: a falsy registry returns None silently; indexing an
absent chat id, or an absent notify_for_no_updates field, raises
KeyError; otherwise the field is negated in place, the registry is
saved and a status reply is sent. -/
def cmd_set_notify_no_updates (chats : Option Registry) (chat_id : String) :
    ToggleResult :=
  match chats with
  | none => .silent
  | some cs =>
    if cs.isEmpty then .silent
    else
      match cs.lookup chat_id with
      | none => .keyError
      | some r =>
        match r.notify_for_no_updates with
        | none => .keyError
        | some b =>
          let new_val := !b
          let saved := cs.map
            (fun p => if p.fst == chat_id then (p.fst, ⟨some new_val⟩) else p)
          .ok new_val saved
            (if new_val then
              "Enabled - get status updates even if no changes are detected"
             else "Disabled - no status updates if no changes are detected")

/-- Test registry: subscriber 1 opted out of no-change notices,
subscriber 2 opted in. -/
def regTwo : Registry := [("1", ⟨some false⟩), ("2", ⟨some true⟩)]

/-- Test snapshot with a single location. -/
def snapA : Snapshot := [("Rue A", (some "47.05", some "8.30"))]

/-- The no-changes message of velox.py. -/
def noChangeMsg : String := "Checking for updates\n\nNo changes detected."

/-- The no-changes message of velox-bot-async.py. -/
def noChangeMsgAsync : String := "Checking for updates:\nNo changes detected."

/-- C1: on a successful fetch with an empty diff, the velox.py
pipeline delivers the no-changes message to every subscriber under a
forced run and exactly to the opted-in subscribers under a normal run;
but the async variant delivers it to every subscriber even under a
normal scheduled run, because the preference test in its broadcast has
a pass body: subscriber 1, whose preference is False, receives the
message anyway. -/
theorem c1_async_filter_noop :
    (check_for_updates true true false (some snapA) (.present snapA)
        (some regTwo)).deliveries = [("2", noChangeMsg)] ∧
    (check_for_updates true true true (some snapA) (.present snapA)
        (some regTwo)).deliveries
      = [("1", noChangeMsg), ("2", noChangeMsg)] ∧
    (checkForUpdatesAsync (some ["Rue A"]) (.present ["Rue A"])
        (some regTwo)).map AsyncRunResult.deliveries
      = .ok [("1", noChangeMsgAsync), ("2", noChangeMsgAsync)] :=
  ⟨by decide, by decide, rfl⟩

/-- C2: when the fetch fails, both variants broadcast the distinct
fail message to every registered subscriber, with the no_updates flag
off so no preference is consulted, and both return before writing the
snapshot file, which is therefore left exactly as it was. -/
theorem c2_fetch_failure_broadcast_all (cs : Registry)
    (prevFile : FileState Snapshot) (prevFileA : FileState (List String))
    (save_list forced_update : Bool) :
    (check_for_updates true save_list forced_update none prevFile
        (some cs)).deliveries = cs.map (fun p => (p.fst, failMsg)) ∧
    (check_for_updates true save_list forced_update none prevFile
        (some cs)).prevFile = prevFile ∧
    (checkForUpdatesAsync none prevFileA (some cs)).map
        AsyncRunResult.deliveries
      = .ok (cs.map (fun p => (p.fst, failMsg))) ∧
    (checkForUpdatesAsync none prevFileA (some cs)).map
        AsyncRunResult.prevFile = .ok prevFileA := by
  refine ⟨?_, rfl, ?_, rfl⟩
  · cases cs with
    | nil => rfl
    | cons a l => simp [check_for_updates, broadcast]
  · cases cs with
    | nil => rfl
    | cons a l => simp [checkForUpdatesAsync, broadcastAsync, Except.map]

/-- C3: the diff of check_for_updates is the pure set difference on
names: a name is added exactly when it is a key of the current
snapshot and not of the previous one, removed exactly when it is a key
of the previous snapshot and not of the current one, and the diff of
any snapshot against itself is empty on both sides. -/
theorem c3_diff_set_difference (previous current : Snapshot) (k : String)
    (s : Snapshot) :
    (k ∈ diffAdded previous current
      ↔ k ∈ keysOf current ∧ ¬ k ∈ keysOf previous) ∧
    (k ∈ diffRemoved previous current
      ↔ k ∈ keysOf previous ∧ ¬ k ∈ keysOf current) ∧
    diffAdded s s = [] ∧ diffRemoved s s = [] := by
  refine ⟨?_, ?_, ?_, ?_⟩ <;>
    simp [diffAdded, diffRemoved, List.mem_filter, List.filter_eq_nil_iff]

/-- C4 counterexample: in the async variant a normal run whose diff is
empty still persists the fetched snapshot: with stored list [A, B] and
fetched list [B, A] both diff sets are empty, yet after the run the
stored file holds [B, A], which differs from the previous contents. -/
theorem c4_counterexample :
    (checkForUpdatesAsync (some ["B", "A"]) (.present ["A", "B"]) none)
      = .ok ⟨[], .present ["B", "A"]⟩ ∧
    (["B", "A"].filter (fun k => !(["A", "B"].contains k))).isEmpty = true ∧
    (["A", "B"].filter (fun k => !(["B", "A"].contains k))).isEmpty = true ∧
    (FileState.present ["B", "A"] : FileState (List String))
      ≠ .present ["A", "B"] :=
  ⟨rfl, by decide, by decide, by decide⟩

/-- C4 amended: in velox.py, with saving enabled, the snapshot file
after a successful fetch equals the fetched snapshot exactly when the
diff found a change or the run was forced, and is otherwise left
unchanged; in the async variant the fetched list is always persisted
after a successful fetch, whether or not anything changed. -/
theorem c4_amended (current : Snapshot) (prevFile : FileState Snapshot)
    (chats chatsA : Option Registry) (hasApp forced_update : Bool)
    (cur prevList : List String) :
    ((check_for_updates hasApp true forced_update (some current) prevFile
        chats).prevFile
      = if (diffAdded (loadPrevious prevFile) current).isEmpty
           && (diffRemoved (loadPrevious prevFile) current).isEmpty
           && !forced_update
        then prevFile else .present current) ∧
    ((checkForUpdatesAsync (some cur) (.present prevList) chatsA).map
        AsyncRunResult.prevFile = .ok (.present cur)) := by
  constructor
  · simp only [check_for_updates]
    rcases h : (diffAdded (loadPrevious prevFile) current).isEmpty
        && (diffRemoved (loadPrevious prevFile) current).isEmpty
        && !forced_update with _ | _ <;> simp [h]
  · rfl

/-- After one save_chat_id call the registry holds the chat id exactly
once, provided it held it at most once before. -/
theorem count_after_save (cs : Registry) (chat_id : String)
    (h : ((cs.map Prod.fst).count chat_id) ≤ 1) :
    (((save_chat_id cs chat_id).snd.map Prod.fst).count chat_id) = 1 := by
  unfold save_chat_id
  cases hc : (cs.map Prod.fst).contains chat_id with
  | true =>
    have hm : chat_id ∈ cs.map Prod.fst := by
      simpa using hc
    have h1 : 0 < (cs.map Prod.fst).count chat_id :=
      List.count_pos_iff.mpr hm
    show ((cs.map Prod.fst).count chat_id) = 1
    omega
  | false =>
    have hm : ¬ chat_id ∈ cs.map Prod.fst := by
      simpa using hc
    have h0 : (cs.map Prod.fst).count chat_id = 0 :=
      List.count_eq_zero.mpr hm
    show (((cs ++ [(chat_id, (⟨some false⟩ : ChatRecord))]).map
      Prod.fst).count chat_id) = 1
    simp [List.count_append, h0]

/-- C5: subscribing an id absent from the registry returns True and
appends exactly one record with the no-change preference defaulted to
False; subscribing an id already present returns False and leaves the
registry unchanged; and after any positive number of subscriptions of
the same id the registry holds exactly one entry for it. -/
theorem c5_subscribe_idempotent (cs : Registry) (chat_id : String)
    (h : ((cs.map Prod.fst).count chat_id) ≤ 1) :
    ((cs.map Prod.fst).contains chat_id = false →
      save_chat_id cs chat_id = (true, cs ++ [(chat_id, ⟨some false⟩)])) ∧
    ((cs.map Prod.fst).contains chat_id = true →
      save_chat_id cs chat_id = (false, cs)) ∧
    (∀ n, 1 ≤ n →
      (((subscribeN n cs chat_id).map Prod.fst).count chat_id) = 1) := by
  refine ⟨fun hc => by unfold save_chat_id; rw [hc]; rfl,
    fun hc => by unfold save_chat_id; rw [hc]; rfl, ?_⟩
  intro n hn
  induction n with
  | zero => omega
  | succ m ih =>
    cases m with
    | zero => exact count_after_save cs chat_id h
    | succ k =>
      have hk := ih (by omega)
      exact count_after_save _ chat_id (le_of_eq hk)

/-- Witness for C5 at the empty registry: two subscriptions of the
same id leave exactly one entry for it. -/
theorem c5_witness :
    ((([] : Registry).map Prod.fst).count "1") ≤ 1 ∧
    (((subscribeN 2 [] "1").map Prod.fst).count "1") = 1 :=
  ⟨by decide, (c5_subscribe_idempotent [] "1" (by decide)).2.2 2 (by decide)⟩

/-- C6 amended: toggling the preference of an id that is absent from a
nonempty registry raises KeyError (a loud failure, and the registry is
not saved); but when the registry is missing or empty the handler
silently returns None, with no reply and no change. -/
theorem c6_amended (cs : Registry) (chat_id : String)
    (h1 : cs.isEmpty = false) (h2 : cs.lookup chat_id = none) :
    cmd_set_notify_no_updates (some cs) chat_id = .keyError ∧
    cmd_set_notify_no_updates (some []) chat_id = .silent ∧
    cmd_set_notify_no_updates none chat_id = .silent := by
  refine ⟨?_, rfl, rfl⟩
  simp [cmd_set_notify_no_updates, h1, h2]

/-- Witness for C6 amended at a one-entry registry and an id not in
it. -/
theorem c6_witness :
    ([("1", (⟨some false⟩ : ChatRecord))] : Registry).isEmpty = false ∧
    ([("1", (⟨some false⟩ : ChatRecord))] : Registry).lookup "2" = none ∧
    (cmd_set_notify_no_updates (some [("1", ⟨some false⟩)]) "2" = .keyError ∧
     cmd_set_notify_no_updates (some []) "2" = .silent ∧
     cmd_set_notify_no_updates none "2" = .silent) :=
  ⟨by decide, by decide,
    c6_amended [("1", ⟨some false⟩)] "2" (by decide) (by decide)⟩

/-- C6 counterexample: toggling the preference of an unregistered id
when the registry is empty, or missing, is a silent no-op (the handler
returns None, sends no reply and saves nothing), not a loud error. -/
theorem c6_counterexample :
    cmd_set_notify_no_updates (some []) "42" = .silent ∧
    cmd_set_notify_no_updates none "42" = .silent := by
  decide

/-- C7 counterexample: loading the subscriber registry from a corrupt
chat_ids.json raises ValueError (get_chats catches FileNotFoundError
only), instead of returning the empty state. -/
theorem c7_counterexample :
    get_chats .corrupt = .error "ValueError" ∧
    get_chats .corrupt ≠ .ok none ∧
    get_chats .corrupt ≠ .ok (some ([] : Registry)) := by
  refine ⟨rfl, ?_, ?_⟩ <;> simp [get_chats]

/-- C7 amended: the snapshot load treats both a missing and a corrupt
previous_dict.json as the empty previous state, and the registry load
treats a missing chat_ids.json as no subscribers, but a corrupt
chat_ids.json raises ValueError uncaught. -/
theorem c7_amended (r : Registry) (s : Snapshot) :
    loadPrevious .missing = [] ∧
    loadPrevious .corrupt = [] ∧
    loadPrevious (.present s) = s ∧
    get_chats .missing = .ok none ∧
    get_chats (.present r) = .ok (some r) ∧
    get_chats .corrupt = .error "ValueError" :=
  ⟨rfl, rfl, rfl, rfl, rfl, rfl⟩

/-- C8 counterexample: an anchor whose onclick data does not match the
coordinate pattern is recorded with absent coordinates, and the link
generated for it is still the coordinate-based maps lookup with the
text None interpolated into both slots, not the source page URL or any
other fallback reference. -/
theorem c8_counterexample :
    fetch_current_dict (.page [⟨some ⟨"Rue X", none⟩⟩, ⟨none⟩])
      = some [("Rue X", (none, none))] ∧
    generate_maps_base_url (none, none)
      = "https://www.google.com/maps/search/?api=1&query=None%2CNone" ∧
    generate_maps_base_url (none, none) ≠ sourceUrl := by
  decide

/-- C8 amended: a location whose coordinates could not be extracted is
recorded with absent coordinates, and the link generated for it
interpolates the placeholder text None into the usual maps lookup URL
(there is no fallback to the source page URL). -/
theorem c8_amended (t : ATag) (h : t.coordsMatch = none) :
    fetchEntry t = (t.text, (none, none)) ∧
    generate_maps_base_url (none, none)
      = "https://www.google.com/maps/search/?api=1&query=None%2CNone" := by
  constructor
  · simp [fetchEntry, h]
  · rfl

/-- Witness for C8 amended at a concrete anchor without a coordinate
match. -/
theorem c8_witness :
    (ATag.mk "Rue X" none).coordsMatch = none ∧
    (fetchEntry ⟨"Rue X", none⟩ = ("Rue X", (none, none)) ∧
     generate_maps_base_url (none, none)
       = "https://www.google.com/maps/search/?api=1&query=None%2CNone") :=
  ⟨rfl, c8_amended ⟨"Rue X", none⟩ rfl⟩

/-- C9: when the fetch fails, cmd_current_list raises AttributeError
(it iterates the items of None) instead of replying with an error
message; on a successful fetch it replies with the current list, each
entry formatted with the same formatEntry rule the notifier uses. -/
theorem c9_current_list_crashes_on_fetch_failure :
    cmd_current_list none = .crash "AttributeError" ∧
    (∀ d : Snapshot, cmd_current_list (some d)
      = .reply ("Current List\n\n"
          ++ String.join (d.map (fun p => formatEntry p.fst p.snd)))) :=
  ⟨rfl, fun _ => rfl⟩

/-- C10: when the stored record of a chat id lacks the
notify_for_no_updates field, the preference lookup returns False
rather than raising, and a no-change broadcast over a registry holding
such a record skips it without failing. -/
theorem c10_missing_field_defaults_false (cs : Registry) (chat_id : String)
    (h : cs.lookup chat_id = some ⟨none⟩) :
    should_notify_no_updates (some cs) chat_id = .ok false ∧
    (∀ msg : String, broadcast (some [(chat_id, ⟨none⟩)]) msg true = []) := by
  have hne : cs.isEmpty = false := by
    cases cs with
    | nil => simp at h
    | cons a l => rfl
  constructor
  · simp [should_notify_no_updates, hne, h, recordPref]
  · intro msg
    rfl

/-- Witness for C10 at a concrete registry holding one record without
the preference field. -/
theorem c10_witness :
    ([("7", (⟨none⟩ : ChatRecord))] : Registry).lookup "7" = some ⟨none⟩ ∧
    (should_notify_no_updates (some [("7", ⟨none⟩)]) "7" = .ok false ∧
     (∀ msg : String, broadcast (some [("7", ⟨none⟩)]) msg true = [])) :=
  ⟨by decide, c10_missing_field_defaults_false [("7", ⟨none⟩)] "7" (by decide)⟩

end Velox
